import Mathlib

/-!
Verification of the snowflake identifier generator
(`packages/core/src/utils/snowflake.py`).

Modelling notes.

* Python integers are unbounded and signed; they are modelled as `ℤ`.
  The bitwise operations of `Mathlib.Data.Int.Bitwise` (`Int.lor`,
  `Int.land`, `Int.xor`, `<<<`, `>>>`) have the same two's-complement
  semantics as Python's `|`, `&`, `^`, `<<`, `>>`.
* The wall clock (`current_time`, i.e. `int(time() * 1000)`) is an
  external input; `generate_id` receives the reading taken at its first
  line as the argument `timestamp`.
* `random.randint(0, MAX_SEQUENCE)` returns an integer in `[0, 4095]`;
  the successive values it yields inside one call's `while True` loop are
  modelled as a list of `Fin 4096`, one element per iteration.  If the
  supplied list is exhausted before the loop breaks, the result is
  `GenResult.spinning`: the concrete loop would simply keep drawing.
* `raise` is modelled as an error-valued result.  The `__init__` method
  assigns the attributes and then raises; since the raise discards the
  partially built object, construction is modelled as a validity check
  followed by construction of the record.
-/

namespace Snowflake

/-- Source constant `MACHINE_ID_BITS = 10`. -/
def MACHINE_ID_BITS : ℕ := 10

/-- Source constant `SEQUENCE_BITS = 12`. -/
def SEQUENCE_BITS : ℕ := 12

/-- Source constant `MAX_MACHINE_ID = -1 ^ (-1 << MACHINE_ID_BITS)`
(Python `^` is bitwise xor). -/
def MAX_MACHINE_ID : ℤ := Int.xor (-1) ((-1) <<< (MACHINE_ID_BITS : ℤ))

/-- Source constant `MAX_SEQUENCE = -1 ^ (-1 << SEQUENCE_BITS)`. -/
def MAX_SEQUENCE : ℤ := Int.xor (-1) ((-1) <<< (SEQUENCE_BITS : ℤ))

/-- Source constant `MACHINE_ID_SHIFT = SEQUENCE_BITS`. -/
def MACHINE_ID_SHIFT : ℕ := SEQUENCE_BITS

/-- Source constant `TIMESTAMP_LEFT_SHIFT = SEQUENCE_BITS + MACHINE_ID_BITS`. -/
def TIMESTAMP_LEFT_SHIFT : ℕ := SEQUENCE_BITS + MACHINE_ID_BITS

/-- Mutable state of a `SnowflakeGenerator` object: the two constructor
arguments plus `last_timestamp` (initially `-1`) and the Python set
`generated_sequences` (initially empty; it only ever holds outputs of
`random.randint(0, MAX_SEQUENCE)`, hence elements of `Fin 4096`). -/
structure SnowflakeGenerator where
  epoch : ℤ
  machine_id : ℤ
  last_timestamp : ℤ
  generated_sequences : Finset (Fin 4096)
deriving DecidableEq

/-- Constructor `SnowflakeGenerator(epoch, machine_id)`: records the
arguments, then raises `ValueError` when
`machine_id < 0 or machine_id > MAX_MACHINE_ID`. -/
def mkSnowflakeGenerator (epoch machine_id : ℤ) : Except String SnowflakeGenerator :=
  if machine_id < 0 ∨ machine_id > MAX_MACHINE_ID then
    Except.error "Machine ID must be between 0 and 1023"
  else
    Except.ok { epoch := epoch, machine_id := machine_id, last_timestamp := -1,
                generated_sequences := ∅ }

/-- Outcome of one `generate_id()` call.  `clockRegression` is the raised
`Exception("Clock moved backwards. Refusing to generate id")`; since the
raise happens before any mutation, it carries no successor state and the
caller's state is unchanged.  `spinning g` means the `while True` loop has
consumed every supplied random draw without breaking; `g` is the state
after the timestamp step (the loop itself mutates nothing until it
breaks). -/
inductive GenResult where
  | clockRegression
  | spinning (g : SnowflakeGenerator)
  | ok (id : ℤ) (g : SnowflakeGenerator)
deriving DecidableEq

/-- Lines 32 to 34 of the source: when the clock reading differs from
`last_timestamp`, clear `generated_sequences` and store the new reading. -/
def afterClockStep (g : SnowflakeGenerator) (timestamp : ℤ) : SnowflakeGenerator :=
  if timestamp ≠ g.last_timestamp then
    { g with generated_sequences := ∅, last_timestamp := timestamp }
  else g

/-- The `while True` loop body: draw values until one is not in
`generated_sequences`; `none` when the supplied draws run out first. -/
def drawLoop (used : Finset (Fin 4096)) : List (Fin 4096) → Option (Fin 4096)
  | [] => none
  | s :: rest => if s ∈ used then drawLoop used rest else some s

/-- Lines 36 to 40 of the source: run the draw loop and, on success, add
the fresh sequence to `generated_sequences`. -/
def allocate (g : SnowflakeGenerator) (draws : List (Fin 4096)) :
    Option (Fin 4096 × SnowflakeGenerator) :=
  match drawLoop g.generated_sequences draws with
  | none => none
  | some s => some (s, { g with generated_sequences := insert s g.generated_sequences })

/-- Lines 42 to 44 of the source: the packed identifier
`((timestamp - epoch) << TIMESTAMP_LEFT_SHIFT) | (machine_id << MACHINE_ID_SHIFT) | sequence`. -/
def pack_id (delta machineId sequence : ℤ) : ℤ :=
  Int.lor
    (Int.lor (delta <<< (TIMESTAMP_LEFT_SHIFT : ℤ)) (machineId <<< (MACHINE_ID_SHIFT : ℤ)))
    sequence

/-- Method `generate_id(self)`, with the clock reading and the stream of
random draws passed explicitly. -/
def generate_id (g : SnowflakeGenerator) (timestamp : ℤ) (draws : List (Fin 4096)) :
    GenResult :=
  if timestamp < g.last_timestamp then GenResult.clockRegression
  else
    match allocate (afterClockStep g timestamp) draws with
    | none => GenResult.spinning (afterClockStep g timestamp)
    | some (s, g2) =>
        GenResult.ok (pack_id (timestamp - g.epoch) g.machine_id ((s : ℕ) : ℤ)) g2

/-- Function `parse_snowflake_id(snowflake_id, epoch)`: the triple
`(timestamp, machine_id, sequence)`. -/
def parse_snowflake_id (snowflake_id : ℤ) (epoch : ℤ) : ℤ × ℤ × ℤ :=
  ((snowflake_id >>> (TIMESTAMP_LEFT_SHIFT : ℤ)) + epoch,
   Int.land (snowflake_id >>> (MACHINE_ID_SHIFT : ℤ)) MAX_MACHINE_ID,
   Int.land snowflake_id MAX_SEQUENCE)

/-- Repeated `generate_id()` calls under a clock frozen at `t`, recording
the sequence value allocated by each successful call; the run stops at the
first call that does not return (clock regression or a never-breaking
loop). -/
def runFrozen (t : ℤ) (g : SnowflakeGenerator) :
    List (List (Fin 4096)) → List (Fin 4096)
  | [] => []
  | draws :: rest =>
    if t < g.last_timestamp then []
    else
      match allocate (afterClockStep g t) draws with
      | none => []
      | some (s, g2) => s :: runFrozen t g2 rest

/-- Same run as `runFrozen`, recording the identifiers returned by the
successful `generate_id()` calls. -/
def runFrozenIds (t : ℤ) (g : SnowflakeGenerator) :
    List (List (Fin 4096)) → List ℤ
  | [] => []
  | draws :: rest =>
    match generate_id g t draws with
    | GenResult.ok i g2 => i :: runFrozenIds t g2 rest
    | _ => []

/-- An arbitrary interleaving of `generate_id()` calls, each with its own
clock reading and draw stream, returning the final generator state.  A
raised clock-regression exception leaves the state unchanged; a call whose
loop never breaks ends the run in the state the loop was entered with. -/
def runCalls (g : SnowflakeGenerator) : List (ℤ × List (Fin 4096)) → SnowflakeGenerator
  | [] => g
  | (t, draws) :: rest =>
    match generate_id g t draws with
    | GenResult.ok _ g2 => runCalls g2 rest
    | GenResult.spinning g1 => g1
    | GenResult.clockRegression => runCalls g rest

/-! Arithmetic readings of the source constants and bridging lemmas from
the integer bitwise operations to natural-number arithmetic. -/

lemma MAX_MACHINE_ID_eq : MAX_MACHINE_ID = 1023 := by decide

lemma MAX_SEQUENCE_eq : MAX_SEQUENCE = 4095 := by decide

lemma TIMESTAMP_LEFT_SHIFT_eq : TIMESTAMP_LEFT_SHIFT = 22 := rfl

lemma MACHINE_ID_SHIFT_eq : MACHINE_ID_SHIFT = 12 := rfl

lemma int_lor_coe (a b : ℕ) : Int.lor (a : ℤ) (b : ℤ) = ((a ||| b : ℕ) : ℤ) := rfl

lemma int_land_coe (a b : ℕ) : Int.land (a : ℤ) (b : ℤ) = ((a &&& b : ℕ) : ℤ) := rfl

lemma pack_id_coe (d m s : ℕ) (hm : m < 2 ^ 10) (hs : s < 2 ^ 12) :
    pack_id (d : ℤ) (m : ℤ) (s : ℤ) = ((d * 2 ^ 22 + m * 2 ^ 12 + s : ℕ) : ℤ) := by
  unfold pack_id
  rw [TIMESTAMP_LEFT_SHIFT_eq, MACHINE_ID_SHIFT_eq, Int.shiftLeft_coe_nat,
    Int.shiftLeft_coe_nat, int_lor_coe, int_lor_coe]
  congr 1
  have e10 : (2 : ℕ) ^ 10 = 1024 := by norm_num
  have e12 : (2 : ℕ) ^ 12 = 4096 := by norm_num
  have e22 : (2 : ℕ) ^ 22 = 4194304 := by norm_num
  rw [Nat.shiftLeft_eq, Nat.shiftLeft_eq, Nat.or_assoc]
  have h2 : m * 2 ^ 12 ||| s = m * 2 ^ 12 + s := by
    rw [Nat.mul_comm, ← Nat.mul_add_lt_is_or hs m]
  have h3 : m * 2 ^ 12 + s < 2 ^ 22 := by rw [e12, e22]; rw [e10] at hm; omega
  have h4 : d * 2 ^ 22 ||| (m * 2 ^ 12 + s) = d * 2 ^ 22 + (m * 2 ^ 12 + s) := by
    rw [Nat.mul_comm, ← Nat.mul_add_lt_is_or h3 d]
  rw [h2, h4, Nat.add_assoc]

lemma parse_coe (n : ℕ) (epoch : ℤ) :
    parse_snowflake_id (n : ℤ) epoch =
      (((n >>> 22 : ℕ) : ℤ) + epoch, (((n >>> 12) &&& 1023 : ℕ) : ℤ),
        ((n &&& 4095 : ℕ) : ℤ)) := by
  unfold parse_snowflake_id
  rw [TIMESTAMP_LEFT_SHIFT_eq, MACHINE_ID_SHIFT_eq, MAX_MACHINE_ID_eq, MAX_SEQUENCE_eq,
    Int.shiftRight_coe_nat, Int.shiftRight_coe_nat,
    show (1023 : ℤ) = ((1023 : ℕ) : ℤ) from rfl,
    show (4095 : ℤ) = ((4095 : ℕ) : ℤ) from rfl, int_land_coe, int_land_coe]

lemma parse_pack (d m s : ℕ) (epoch : ℤ) (hm : m < 2 ^ 10) (hs : s < 2 ^ 12) :
    parse_snowflake_id (pack_id (d : ℤ) (m : ℤ) (s : ℤ)) epoch =
      ((d : ℤ) + epoch, (m : ℤ), (s : ℤ)) := by
  rw [pack_id_coe d m s hm hs, parse_coe]
  have e10 : (2 : ℕ) ^ 10 = 1024 := by norm_num
  have e12 : (2 : ℕ) ^ 12 = 4096 := by norm_num
  have e22 : (2 : ℕ) ^ 22 = 4194304 := by norm_num
  rw [e10] at hm; rw [e12] at hs
  have h1 : (d * 2 ^ 22 + m * 2 ^ 12 + s) >>> 22 = d := by
    rw [Nat.shiftRight_eq_div_pow, e12, e22]; omega
  have h2 : ((d * 2 ^ 22 + m * 2 ^ 12 + s) >>> 12) &&& 1023 = m := by
    rw [Nat.shiftRight_eq_div_pow,
      show (1023 : ℕ) = 2 ^ 10 - 1 from by norm_num,
      Nat.and_pow_two_sub_one_eq_mod, e10, e12, e22]
    omega
  have h3 : (d * 2 ^ 22 + m * 2 ^ 12 + s) &&& 4095 = s := by
    rw [show (4095 : ℕ) = 2 ^ 12 - 1 from by norm_num,
      Nat.and_pow_two_sub_one_eq_mod, e12, e22]
    omega
  rw [h1, h2, h3]

/-! Structural lemmas about the generator state machine. -/

lemma afterClockStep_last_timestamp (g : SnowflakeGenerator) (t : ℤ) :
    (afterClockStep g t).last_timestamp = t := by
  unfold afterClockStep
  split
  · rfl
  · next h => push_neg at h; exact h.symm

lemma afterClockStep_epoch (g : SnowflakeGenerator) (t : ℤ) :
    (afterClockStep g t).epoch = g.epoch := by
  unfold afterClockStep; split <;> rfl

lemma afterClockStep_machine_id (g : SnowflakeGenerator) (t : ℤ) :
    (afterClockStep g t).machine_id = g.machine_id := by
  unfold afterClockStep; split <;> rfl

lemma afterClockStep_of_eq {g : SnowflakeGenerator} {t : ℤ}
    (h : g.last_timestamp = t) : afterClockStep g t = g := by
  unfold afterClockStep
  split
  · next hne => exact absurd h.symm hne
  · rfl

lemma drawLoop_some {used : Finset (Fin 4096)} {draws : List (Fin 4096)}
    {s : Fin 4096} (h : drawLoop used draws = some s) : s ∉ used := by
  induction draws with
  | nil => simp [drawLoop] at h
  | cons a rest ih =>
    unfold drawLoop at h
    split at h
    · exact ih h
    · next ha => cases h; exact ha

lemma drawLoop_univ (draws : List (Fin 4096)) :
    drawLoop (Finset.univ : Finset (Fin 4096)) draws = none := by
  induction draws with
  | nil => rfl
  | cons a rest ih => unfold drawLoop; simp [ih]

lemma allocate_some {g g2 : SnowflakeGenerator} {draws : List (Fin 4096)}
    {s : Fin 4096} (h : allocate g draws = some (s, g2)) :
    drawLoop g.generated_sequences draws = some s ∧
      s ∉ g.generated_sequences ∧
      g2 = { g with generated_sequences := insert s g.generated_sequences } := by
  unfold allocate at h
  cases hd : drawLoop g.generated_sequences draws with
  | none => rw [hd] at h; cases h
  | some s' =>
    rw [hd] at h
    cases h
    exact ⟨rfl, drawLoop_some hd, rfl⟩

lemma generate_id_ok {g g2 : SnowflakeGenerator} {t : ℤ}
    {draws : List (Fin 4096)} {i : ℤ}
    (h : generate_id g t draws = GenResult.ok i g2) :
    ¬ t < g.last_timestamp ∧
      ∃ s : Fin 4096, allocate (afterClockStep g t) draws = some (s, g2) ∧
        i = pack_id (t - g.epoch) g.machine_id ((s : ℕ) : ℤ) := by
  unfold generate_id at h
  split at h
  · cases h
  · next hlt =>
    refine ⟨hlt, ?_⟩
    cases ha : allocate (afterClockStep g t) draws with
    | none => rw [ha] at h; cases h
    | some p =>
      obtain ⟨s, g'⟩ := p
      rw [ha] at h
      cases h
      exact ⟨s, rfl, rfl⟩

lemma generate_id_ok_of {g : SnowflakeGenerator} {t : ℤ}
    {draws : List (Fin 4096)} {s : Fin 4096} {g2 : SnowflakeGenerator}
    (hlt : ¬ t < g.last_timestamp)
    (ha : allocate (afterClockStep g t) draws = some (s, g2)) :
    generate_id g t draws =
      GenResult.ok (pack_id (t - g.epoch) g.machine_id ((s : ℕ) : ℤ)) g2 := by
  unfold generate_id
  rw [if_neg hlt, ha]

lemma generate_id_ok_epoch {g g2 : SnowflakeGenerator} {t : ℤ}
    {draws : List (Fin 4096)} {i : ℤ}
    (h : generate_id g t draws = GenResult.ok i g2) :
    g2.epoch = g.epoch ∧ g2.machine_id = g.machine_id ∧ g2.last_timestamp = t := by
  obtain ⟨-, s, ha, -⟩ := generate_id_ok h
  obtain ⟨-, -, rfl⟩ := allocate_some ha
  exact ⟨afterClockStep_epoch g t, afterClockStep_machine_id g t,
    afterClockStep_last_timestamp g t⟩

lemma generate_id_spinning {g g1 : SnowflakeGenerator} {t : ℤ}
    {draws : List (Fin 4096)}
    (h : generate_id g t draws = GenResult.spinning g1) :
    g1 = afterClockStep g t := by
  unfold generate_id at h
  split at h
  · cases h
  · cases ha : allocate (afterClockStep g t) draws with
    | none => rw [ha] at h; cases h; rfl
    | some p => obtain ⟨s, g'⟩ := p; rw [ha] at h; cases h

lemma runFrozen_spec (t : ℤ) :
    ∀ (dss : List (List (Fin 4096))) (g : SnowflakeGenerator),
      g.last_timestamp = t →
      (runFrozen t g dss).Nodup ∧
        ∀ s ∈ runFrozen t g dss, s ∉ g.generated_sequences := by
  intro dss
  induction dss with
  | nil => intro g _; simp [runFrozen]
  | cons draws rest ih =>
    intro g hg
    unfold runFrozen
    rw [if_neg (by omega), afterClockStep_of_eq hg]
    cases ha : allocate g draws with
    | none => simp
    | some p =>
      obtain ⟨s, g2⟩ := p
      obtain ⟨-, hs, rfl⟩ := allocate_some ha
      obtain ⟨hnd, hmem⟩ :=
        ih { g with generated_sequences := insert s g.generated_sequences } hg
      simp only [List.nodup_cons, List.mem_cons]
      refine ⟨⟨fun hc => ?_, hnd⟩, ?_⟩
      · exact (hmem s hc) (Finset.mem_insert_self s _)
      · rintro x (rfl | hx)
        · exact hs
        · exact fun hc => (hmem x hx) (Finset.mem_insert_of_mem hc)

lemma runFrozen_nodup (t : ℤ) (g : SnowflakeGenerator)
    (dss : List (List (Fin 4096))) : (runFrozen t g dss).Nodup := by
  cases dss with
  | nil => simp [runFrozen]
  | cons draws rest =>
    unfold runFrozen
    split
    · simp
    · cases ha : allocate (afterClockStep g t) draws with
      | none => simp
      | some p =>
        obtain ⟨s, g2⟩ := p
        obtain ⟨-, -, hg2⟩ := allocate_some ha
        have hlast : g2.last_timestamp = t := by
          rw [hg2]; exact afterClockStep_last_timestamp g t
        obtain ⟨hnd, hmem⟩ := runFrozen_spec t rest g2 hlast
        simp only [List.nodup_cons]
        refine ⟨fun hc => (hmem s hc) ?_, hnd⟩
        rw [hg2]
        exact Finset.mem_insert_self s _

lemma runFrozenIds_eq (t : ℤ) :
    ∀ (dss : List (List (Fin 4096))) (g : SnowflakeGenerator),
      runFrozenIds t g dss =
        (runFrozen t g dss).map
          (fun s : Fin 4096 => pack_id (t - g.epoch) g.machine_id ((s : ℕ) : ℤ)) := by
  intro dss
  induction dss with
  | nil => intro g; simp [runFrozenIds, runFrozen]
  | cons draws rest ih =>
    intro g
    unfold runFrozenIds runFrozen
    by_cases hlt : t < g.last_timestamp
    · rw [if_pos hlt]
      unfold generate_id
      rw [if_pos hlt]
      simp
    · rw [if_neg hlt]
      cases ha : allocate (afterClockStep g t) draws with
      | none =>
        have : generate_id g t draws = GenResult.spinning (afterClockStep g t) := by
          unfold generate_id; rw [if_neg hlt, ha]
        rw [this]
        simp
      | some p =>
        obtain ⟨s, g2⟩ := p
        rw [generate_id_ok_of hlt ha]
        obtain ⟨-, -, hg2⟩ := allocate_some ha
        have hep : g2.epoch = g.epoch := by rw [hg2]; exact afterClockStep_epoch g t
        have hmi : g2.machine_id = g.machine_id := by
          rw [hg2]; exact afterClockStep_machine_id g t
        show pack_id (t - g.epoch) g.machine_id ((s : ℕ) : ℤ) :: runFrozenIds t g2 rest =
          (s :: runFrozen t g2 rest).map
            (fun s : Fin 4096 => pack_id (t - g.epoch) g.machine_id ((s : ℕ) : ℤ))
        rw [List.map_cons, ih g2, hep, hmi]

lemma pack_id_seq_inj {d m : ℤ} (hd : 0 ≤ d) (hm0 : 0 ≤ m) (hm1 : m ≤ 1023)
    {s1 s2 : Fin 4096}
    (h : pack_id d m ((s1 : ℕ) : ℤ) = pack_id d m ((s2 : ℕ) : ℤ)) : s1 = s2 := by
  obtain ⟨dn, rfl⟩ : ∃ dn : ℕ, d = (dn : ℤ) := ⟨d.toNat, by omega⟩
  obtain ⟨mn, rfl⟩ : ∃ mn : ℕ, m = (mn : ℤ) := ⟨m.toNat, by omega⟩
  have hmn : mn < 2 ^ 10 := by norm_num; omega
  have hs1 : (s1 : ℕ) < 2 ^ 12 := by norm_num [s1.isLt]
  have hs2 : (s2 : ℕ) < 2 ^ 12 := by norm_num [s2.isLt]
  have h1 := parse_pack dn mn (s1 : ℕ) 0 hmn hs1
  have h2 := parse_pack dn mn (s2 : ℕ) 0 hmn hs2
  have := congrArg (fun x => (parse_snowflake_id x 0).2.2) h
  simp only [h1, h2] at this
  exact Fin.ext (by exact_mod_cast this)

lemma runCalls_frame :
    ∀ (calls : List (ℤ × List (Fin 4096))) (g : SnowflakeGenerator),
      (runCalls g calls).epoch = g.epoch ∧
        (runCalls g calls).machine_id = g.machine_id := by
  intro calls
  induction calls with
  | nil => intro g; exact ⟨rfl, rfl⟩
  | cons c rest ih =>
    intro g
    obtain ⟨t, draws⟩ := c
    unfold runCalls
    cases hg : generate_id g t draws with
    | clockRegression => exact ih g
    | spinning g1 =>
      rw [generate_id_spinning hg]
      exact ⟨afterClockStep_epoch g t, afterClockStep_machine_id g t⟩
    | ok i g2 =>
      obtain ⟨hep, hmi, -⟩ := generate_id_ok_epoch hg
      obtain ⟨ih1, ih2⟩ := ih g2
      exact ⟨ih1.trans hep, ih2.trans hmi⟩

lemma generate_id_parse {g g2 : SnowflakeGenerator} {t : ℤ}
    {draws : List (Fin 4096)} {i : ℤ}
    (hm0 : 0 ≤ g.machine_id) (hm1 : g.machine_id ≤ MAX_MACHINE_ID)
    (he : g.epoch ≤ t)
    (h : generate_id g t draws = GenResult.ok i g2) :
    ∃ s : Fin 4096, allocate (afterClockStep g t) draws = some (s, g2) ∧
      parse_snowflake_id i g.epoch = (t, g.machine_id, ((s : ℕ) : ℤ)) := by
  obtain ⟨hlt, s, ha, hid⟩ := generate_id_ok h
  refine ⟨s, ha, ?_⟩
  subst hid
  obtain ⟨d, hd⟩ : ∃ d : ℕ, t - g.epoch = (d : ℤ) := ⟨(t - g.epoch).toNat, by omega⟩
  obtain ⟨m, hm⟩ : ∃ m : ℕ, g.machine_id = (m : ℤ) := ⟨g.machine_id.toNat, by omega⟩
  rw [MAX_MACHINE_ID_eq, hm] at hm1
  have hm' : m < 2 ^ 10 := by norm_num; omega
  have hs : (s : ℕ) < 2 ^ 12 := by norm_num [s.isLt]
  rw [hd, hm, parse_pack d m (s : ℕ) g.epoch hm' hs]
  have hdt : (d : ℤ) + g.epoch = t := by omega
  rw [hdt]

/-! Concrete fixtures used by the witness theorems. -/

/-- Freshly constructed generator with epoch 0 and machine id 1. -/
def wGen : SnowflakeGenerator :=
  { epoch := 0, machine_id := 1, last_timestamp := -1, generated_sequences := ∅ }

/-- State of `wGen` after one successful call at clock reading 5 that drew
sequence 7. -/
def wGen2 : SnowflakeGenerator :=
  { epoch := 0, machine_id := 1, last_timestamp := 5, generated_sequences := {7} }

/-- State of `wGen2` after one further successful call at clock reading 6
that drew sequence 7 again. -/
def wGen6 : SnowflakeGenerator :=
  { epoch := 0, machine_id := 1, last_timestamp := 6, generated_sequences := {7} }

/-- Generator whose clock last read 5, used to exhibit a clock regression. -/
def wGen5 : SnowflakeGenerator :=
  { epoch := 0, machine_id := 1, last_timestamp := 5, generated_sequences := ∅ }

/-- Generator that has already issued all 4096 sequence values during the
millisecond 0. -/
def wGenFull : SnowflakeGenerator :=
  { epoch := 0, machine_id := 1, last_timestamp := 0,
    generated_sequences := Finset.univ }

/-! Claim theorems. -/

/-- C1: for every generator with a fixed epoch and machine id, issuing any
number of successful `generate_id()` calls while the clock reading stays
frozen at one value never produces two identical sequence values, and
(for a validly constructed generator and epoch at or before the reading)
never two identical identifiers. -/
theorem frozen_clock_no_duplicates (g : SnowflakeGenerator) (t : ℤ)
    (dss : List (List (Fin 4096))) :
    (runFrozen t g dss).Nodup ∧
      (0 ≤ g.machine_id → g.machine_id ≤ MAX_MACHINE_ID → g.epoch ≤ t →
        (runFrozenIds t g dss).Nodup) := by
  refine ⟨runFrozen_nodup t g dss, fun hm0 hm1 he => ?_⟩
  rw [runFrozenIds_eq]
  refine List.Nodup.map ?_ (runFrozen_nodup t g dss)
  intro s1 s2 hs
  rw [MAX_MACHINE_ID_eq] at hm1
  exact pack_id_seq_inj (by omega) hm0 hm1 hs

theorem frozen_clock_no_duplicates_witness :
    (runFrozen 5 wGen [[3], [3, 9]]).Nodup ∧
      (runFrozenIds 5 wGen [[3], [3, 9]]).Nodup :=
  ⟨(frozen_clock_no_duplicates wGen 5 [[3], [3, 9]]).1,
    (frozen_clock_no_duplicates wGen 5 [[3], [3, 9]]).2 (by decide) (by decide)
      (by decide)⟩

/-- C2: for a validly constructed generator (machine id in `[0, 1023]`)
and a valid epoch (at or before the clock reading), every identifier
returned by a successful `generate_id()` call decodes under
`parse_snowflake_id` with the same epoch to exactly the clock reading
observed at generation time, the generator's machine id, and the sequence
value allocated during that call. -/
theorem generated_id_round_trip (g g2 : SnowflakeGenerator) (t : ℤ)
    (draws : List (Fin 4096)) (i : ℤ)
    (hm0 : 0 ≤ g.machine_id) (hm1 : g.machine_id ≤ MAX_MACHINE_ID)
    (he : g.epoch ≤ t)
    (h : generate_id g t draws = GenResult.ok i g2) :
    ∃ s : Fin 4096, allocate (afterClockStep g t) draws = some (s, g2) ∧
      parse_snowflake_id i g.epoch = (t, g.machine_id, ((s : ℕ) : ℤ)) :=
  generate_id_parse hm0 hm1 he h

theorem generated_id_round_trip_witness :
    ∃ s : Fin 4096, allocate (afterClockStep wGen 5) [7] = some (s, wGen2) ∧
      parse_snowflake_id 20975623 wGen.epoch = (5, wGen.machine_id, ((s : ℕ) : ℤ)) :=
  generated_id_round_trip wGen wGen2 5 [7] 20975623 (by decide) (by decide)
    (by decide) (by decide)

/-- C3: every identifier produced by `generate_id()` equals
`(timestampDelta << 22) | (machineId << 12) | sequence` with a sequence of
at most 4095, and for every machine id in `[0, 1023]`, sequence in
`[0, 4095]` and nonnegative timestamp delta, packing by this formula and
then decoding with `parse_snowflake_id` recovers the exact three inputs,
the boundary values included. -/
theorem pack_parse_field_exact :
    (∀ (g g2 : SnowflakeGenerator) (t : ℤ) (draws : List (Fin 4096)) (i : ℤ),
        generate_id g t draws = GenResult.ok i g2 →
        ∃ s : Fin 4096, (s : ℕ) ≤ 4095 ∧
          i = pack_id (t - g.epoch) g.machine_id ((s : ℕ) : ℤ)) ∧
      ∀ (d m s : ℕ) (epoch : ℤ), m ≤ 1023 → s ≤ 4095 →
        parse_snowflake_id (pack_id (d : ℤ) (m : ℤ) (s : ℤ)) epoch =
          ((d : ℤ) + epoch, (m : ℤ), (s : ℤ)) := by
  constructor
  · intro g g2 t draws i h
    obtain ⟨-, s, -, hid⟩ := generate_id_ok h
    exact ⟨s, by have := s.isLt; omega, hid⟩
  · intro d m s epoch hm hs
    exact parse_pack d m s epoch (by norm_num; omega) (by norm_num; omega)

theorem pack_parse_field_exact_witness :
    (∃ s : Fin 4096, (s : ℕ) ≤ 4095 ∧
        (20975623 : ℤ) = pack_id (5 - wGen.epoch) wGen.machine_id ((s : ℕ) : ℤ)) ∧
      parse_snowflake_id (pack_id ((5 : ℕ) : ℤ) ((1023 : ℕ) : ℤ) ((4095 : ℕ) : ℤ)) 0 =
        (((5 : ℕ) : ℤ) + 0, ((1023 : ℕ) : ℤ), ((4095 : ℕ) : ℤ)) :=
  ⟨pack_parse_field_exact.1 wGen wGen2 5 [7] 20975623 (by decide),
    pack_parse_field_exact.2 5 1023 4095 0 (by norm_num) (by norm_num)⟩

/-- C4: whenever the clock reading obtained during a `generate_id()` call
is strictly below `last_timestamp`, the call raises the clock-regression
exception; no identifier is returned and, the raise happening before any
mutation, the generator state seen by subsequent calls is unchanged. -/
theorem clock_regression_rejected (g : SnowflakeGenerator) (t : ℤ)
    (draws : List (Fin 4096)) (h : t < g.last_timestamp) :
    generate_id g t draws = GenResult.clockRegression ∧
      ∀ rest, runCalls g ((t, draws) :: rest) = runCalls g rest := by
  have h1 : generate_id g t draws = GenResult.clockRegression := by
    unfold generate_id
    rw [if_pos h]
  refine ⟨h1, fun rest => ?_⟩
  simp only [runCalls, h1]

theorem clock_regression_rejected_witness :
    generate_id wGen5 3 [] = GenResult.clockRegression ∧
      runCalls wGen5 [(3, [])] = runCalls wGen5 [] :=
  ⟨(clock_regression_rejected wGen5 3 [] (by decide)).1,
    (clock_regression_rejected wGen5 3 [] (by decide)).2 []⟩

/-- C5: when all 4096 sequence values of the current millisecond are
already in `generated_sequences` and the clock reading has not advanced,
`generate_id()` never returns: whatever finite stream of random draws the
loop consumes, the call is still spinning (the reading taken at the start
of the call is never refreshed, so the loop cannot observe a later clock
advance).  This contradicts the required block-until-the-clock-advances
behaviour. -/
theorem exhausted_sequences_never_return (g : SnowflakeGenerator) (t : ℤ)
    (draws : List (Fin 4096)) (hlast : g.last_timestamp = t)
    (hall : g.generated_sequences = Finset.univ) :
    generate_id g t draws = GenResult.spinning g := by
  unfold generate_id
  rw [if_neg (by omega), afterClockStep_of_eq hlast]
  unfold allocate
  rw [hall, drawLoop_univ]

theorem exhausted_sequences_never_return_witness :
    generate_id wGenFull 0 [0, 1, 2] = GenResult.spinning wGenFull :=
  exhausted_sequences_never_return wGenFull 0 [0, 1, 2] rfl rfl

/-- C6: construction fails with the invalid-machine-id error exactly when
the machine id is below 0 or above 1023; otherwise it succeeds and stores
the epoch unvalidated and as given, the machine id, the sentinel
`last_timestamp = -1` and an empty sequence set. -/
theorem construction_validation (epoch machine_id : ℤ) :
    (machine_id < 0 ∨ 1023 < machine_id →
        mkSnowflakeGenerator epoch machine_id =
          Except.error "Machine ID must be between 0 and 1023") ∧
      (0 ≤ machine_id → machine_id ≤ 1023 →
        mkSnowflakeGenerator epoch machine_id =
          Except.ok { epoch := epoch, machine_id := machine_id,
                      last_timestamp := -1, generated_sequences := ∅ }) := by
  unfold mkSnowflakeGenerator
  rw [MAX_MACHINE_ID_eq]
  constructor
  · intro h
    rw [if_pos h]
  · intro h0 h1
    rw [if_neg (by omega)]

theorem construction_validation_witness :
    (mkSnowflakeGenerator 0 1024 =
        Except.error "Machine ID must be between 0 and 1023") ∧
      (mkSnowflakeGenerator 0 (-1) =
        Except.error "Machine ID must be between 0 and 1023") ∧
      (mkSnowflakeGenerator 0 0 =
        Except.ok { epoch := 0, machine_id := 0, last_timestamp := -1,
                    generated_sequences := ∅ }) ∧
      (mkSnowflakeGenerator 7 1023 =
        Except.ok { epoch := 7, machine_id := 1023, last_timestamp := -1,
                    generated_sequences := ∅ }) :=
  ⟨(construction_validation 0 1024).1 (by omega),
    (construction_validation 0 (-1)).1 (by omega),
    (construction_validation 0 0).2 (by omega) (by omega),
    (construction_validation 7 1023).2 (by omega) (by omega)⟩

/-- C7: for every nonnegative input (64-bit or wider) and every epoch,
`parse_snowflake_id` returns a value (it has no failure mode and performs
no provenance validation) computing exactly `sequence = id & 0xFFF`,
`machineId = (id >> 12) & 0x3FF` and `timestamp = (id >> 22) + epoch`. -/
theorem parse_decoder_formula (n : ℕ) (epoch : ℤ) :
    parse_snowflake_id (n : ℤ) epoch =
      (((n >>> 22 : ℕ) : ℤ) + epoch, (((n >>> 12) &&& 0x3FF : ℕ) : ℤ),
        ((n &&& 0xFFF : ℕ) : ℤ)) :=
  parse_coe n epoch

/-- C8: for two identifiers successfully generated at clock readings
`t1 < t2` by validly constructed generators sharing the epoch (in
particular by one generator and a later state of it), the decoded
timestamp of the first is at most the decoded timestamp of the second. -/
theorem timestamp_field_monotone (g g' g1 g2 : SnowflakeGenerator)
    (t1 t2 : ℤ) (d1 d2 : List (Fin 4096)) (i1 i2 : ℤ)
    (hep : g'.epoch = g.epoch)
    (hm0 : 0 ≤ g.machine_id) (hm1 : g.machine_id ≤ MAX_MACHINE_ID)
    (hm0' : 0 ≤ g'.machine_id) (hm1' : g'.machine_id ≤ MAX_MACHINE_ID)
    (he : g.epoch ≤ t1) (hlt : t1 < t2)
    (h1 : generate_id g t1 d1 = GenResult.ok i1 g1)
    (h2 : generate_id g' t2 d2 = GenResult.ok i2 g2) :
    (parse_snowflake_id i1 g.epoch).1 ≤ (parse_snowflake_id i2 g.epoch).1 := by
  obtain ⟨s1, -, hp1⟩ := generate_id_parse hm0 hm1 he h1
  have he2 : g'.epoch ≤ t2 := by omega
  obtain ⟨s2, -, hp2⟩ := generate_id_parse hm0' hm1' he2 h2
  rw [hep] at hp2
  rw [hp1, hp2]
  exact le_of_lt hlt

theorem timestamp_field_monotone_witness :
    (parse_snowflake_id 20975623 wGen.epoch).1 ≤
      (parse_snowflake_id 25169927 wGen.epoch).1 :=
  timestamp_field_monotone wGen wGen2 wGen2 wGen6 5 6 [7] [7] 20975623 25169927
    rfl (by decide) (by decide) (by decide) (by decide) (by decide) (by decide)
    (by decide) (by decide)

/-- C9: across any sequence of `generate_id()` calls, successful or not,
the only generator fields that can change are `last_timestamp` and
`generated_sequences`: `epoch` and `machine_id` keep the values given at
construction. -/
theorem generator_identity_frame (g : SnowflakeGenerator)
    (calls : List (ℤ × List (Fin 4096))) :
    (runCalls g calls).epoch = g.epoch ∧
      (runCalls g calls).machine_id = g.machine_id :=
  runCalls_frame calls g

/-- C10: for every nonnegative input, however wide and whatever its
provenance, and every epoch, the machine id decoded by
`parse_snowflake_id` lies in `[0, 1023]` and the decoded sequence lies in
`[0, 4095]`, because both fields are masked to their bit widths. -/
theorem parse_field_bounds (n : ℕ) (epoch : ℤ) :
    0 ≤ (parse_snowflake_id (n : ℤ) epoch).2.1 ∧
      (parse_snowflake_id (n : ℤ) epoch).2.1 ≤ 1023 ∧
      0 ≤ (parse_snowflake_id (n : ℤ) epoch).2.2 ∧
      (parse_snowflake_id (n : ℤ) epoch).2.2 ≤ 4095 := by
  rw [parse_coe]
  have h1 : (n >>> 12) &&& 1023 < 1024 := by
    rw [show (1023 : ℕ) = 2 ^ 10 - 1 from by norm_num,
      Nat.and_pow_two_sub_one_eq_mod]
    exact Nat.mod_lt _ (by norm_num)
  have h2 : n &&& 4095 < 4096 := by
    rw [show (4095 : ℕ) = 2 ^ 12 - 1 from by norm_num,
      Nat.and_pow_two_sub_one_eq_mod]
    exact Nat.mod_lt _ (by norm_num)
  refine ⟨Int.natCast_nonneg _, ?_, Int.natCast_nonneg _, ?_⟩
  · show (((n >>> 12) &&& 1023 : ℕ) : ℤ) ≤ 1023
    exact_mod_cast (by omega : (n >>> 12) &&& 1023 ≤ 1023)
  · show ((n &&& 4095 : ℕ) : ℤ) ≤ 4095
    exact_mod_cast (by omega : n &&& 4095 ≤ 4095)

end Snowflake
